import Mathlib

/-!
Verification of the LiveKit token-issuance server (`src/livekit/server.ts`).

The server is embedded shallowly:

* `Json` models the JavaScript values that can appear in a parsed request
  body (express.json gives the handler a parsed JSON value; numbers are
  modelled as integers, which suffices for every claim here).
* `Json.truthy` models JavaScript truthiness, which is what the source's
  `if (!roomName || !participantName)` and `if (!apiKey || ...)` tests use.
* `Env` models the three `process.env` values the handler reads at lines
  55-57 of `server.ts`; a missing variable is `none` and JavaScript treats
  the empty string as falsy, hence `envTruthy`.
* The external signing primitive (`new AccessToken(...)` + `toJwt`) is a
  parameter `sign : SignCall → Except JsThrown String`; a thrown JavaScript
  value is `JsThrown` (an `Error` with a message, or any other value, which
  the catch block converts with `String(error)`).
* `handleToken` is the embedding of the `POST /api/token` handler.  It
  returns the HTTP response, the list of signing-primitive invocations that
  occurred (the effect trace), and the process environment as it stands when
  the handler returns (the handler never assigns to `process.env`, so this
  is the input environment).
* `handleHealth` is the embedding of the `GET /health` handler.
* `processRun` models a sequence of requests in one process: `process.env`
  is a mutable global in Node and the handler reads it at each call, so each
  request is paired with the environment in force at its own call time.
-/

namespace LiveKit

/-- JSON-ish JavaScript values as delivered by `express.json()`. -/
inductive Json where
  | null : Json
  | bool : Bool → Json
  | num : Int → Json
  | str : String → Json
  | arr : List Json → Json
  | obj : List (String × Json) → Json


/-- JavaScript truthiness of a value (`!v` is the negation of this). -/
def Json.truthy : Json → Bool
  | .null => false
  | .bool b => b
  | .num n => n != 0
  | .str s => s != ""
  | .arr _ => true
  | .obj _ => true

/-- Property access `v.k` on a JavaScript value: only objects yield fields;
`JSON.parse` keeps the last of duplicate keys, hence the `reverse`. -/
def Json.getField : Json → String → Option Json
  | .obj fields, k => fields.reverse.lookup k
  | _, _ => none

/-- Is the value a JSON object? -/
def Json.isObj : Json → Bool
  | .obj _ => true
  | _ => false

/-- Truthiness of a possibly-undefined value (`undefined` is falsy). -/
def jsTruthy : Option Json → Bool
  | none => false
  | some j => j.truthy

mutual

/-- JavaScript `String(v)` conversion, used by the catch block for
non-`Error` thrown values. -/
def Json.jsString : Json → String
  | .null => "null"
  | .bool b => cond b "true" "false"
  | .num n => toString n
  | .str s => s
  | .arr xs => String.intercalate "," (jsStringElems xs)
  | .obj _ => "[object Object]"

/-- Array elements under `String(...)`: `null` renders as the empty string
inside an array. -/
def jsStringElems : List Json → List String
  | [] => []
  | .null :: rest => "" :: jsStringElems rest
  | j :: rest => Json.jsString j :: jsStringElems rest

end

/-- A thrown JavaScript value: an `Error` instance carrying a message, or an
arbitrary non-`Error` value. -/
inductive JsThrown where
  | error : String → JsThrown
  | value : Json → JsThrown


/-- The message the catch block extracts:
`error instanceof Error ? error.message : String(error)`. -/
def JsThrown.message : JsThrown → String
  | .error m => m
  | .value v => v.jsString

/-- The `process.env` values the handler reads (lines 55-57 of
`server.ts`).  `none` models an unset variable. -/
structure Env where
  livekitApiKey : Option String
  livekitApiSecret : Option String
  livekitUrl : Option String


/-- Truthiness of an environment variable: unset and empty are both falsy
under the source's `if (!apiKey || !apiSecret || !serverUrl)`. -/
def envTruthy : Option String → Bool
  | none => false
  | some s => s != ""

/-- The grant object passed to `tokenBuilder.addGrant` (lines 71-77 of
`server.ts`): exactly these five fields are set. -/
structure VideoGrant where
  roomJoin : Bool
  room : Json
  canPublish : Bool
  canSubscribe : Bool
  canUpdateOwnMetadata : Bool


/-- One invocation of the signing primitive: the `AccessToken` constructor
arguments (key, secret, identity/name options) together with the grant,
consumed by `toJwt`. -/
structure SignCall where
  apiKey : String
  apiSecret : String
  identity : Json
  name : Json
  grant : VideoGrant


/-- An HTTP response: status code and JSON body. -/
structure HttpResponse where
  status : Nat
  body : Json


/-- Result of running the `POST /api/token` handler: the response, the trace
of signing-primitive invocations, and the process environment at return
(the handler performs no assignment to `process.env`). -/
structure HandlerResult where
  resp : HttpResponse
  signCalls : List SignCall
  envAfter : Env


/-- `req.body ?? {}` (line 46): `undefined` (no parsed body) and `null`
are replaced by the empty object; every other value passes through. -/
def bodyOrEmpty : Option Json → Json
  | none => Json.obj []
  | some .null => Json.obj []
  | some j => j

/-- The signing-primitive invocation the handler makes for a given request
body under a given environment (lines 66-79 of `server.ts`): identity and
name are both the request's `participantName`, the grant is scoped to the
request's `roomName` with the four constant capability bits. -/
def signCallOf (env : Env) (body : Option Json) : SignCall :=
  let b := bodyOrEmpty body
  { apiKey := env.livekitApiKey.getD ""
    apiSecret := env.livekitApiSecret.getD ""
    identity := (b.getField "participantName").getD .null
    name := (b.getField "participantName").getD .null
    grant :=
      { roomJoin := true
        room := (b.getField "roomName").getD .null
        canPublish := true
        canSubscribe := true
        canUpdateOwnMetadata := true } }

/-- The `POST /api/token` handler (lines 39-89 of `server.ts`). -/
def handleToken (env : Env) (sign : SignCall → Except JsThrown String)
    (body : Option Json) : HandlerResult :=
  let b := bodyOrEmpty body
  let roomName := b.getField "roomName"
  let participantName := b.getField "participantName"
  if !jsTruthy roomName || !jsTruthy participantName then
    { resp := ⟨400, .obj [("error", .str "roomName and participantName are required")]⟩
      signCalls := []
      envAfter := env }
  else if !envTruthy env.livekitApiKey || !envTruthy env.livekitApiSecret
      || !envTruthy env.livekitUrl then
    { resp := ⟨500, .obj [("error", .str "LiveKit credentials are not configured")]⟩
      signCalls := []
      envAfter := env }
  else
    let call := signCallOf env body
    match sign call with
    | .ok token =>
        { resp := ⟨200, .obj [("token", .str token),
                              ("serverUrl", .str (env.livekitUrl.getD "")),
                              ("roomName", roomName.getD .null),
                              ("participantName", participantName.getD .null)]⟩
          signCalls := [call]
          envAfter := env }
    | .error e =>
        { resp := ⟨500, .obj [("error", .str "Failed to generate token"),
                              ("details", .str e.message)]⟩
          signCalls := [call]
          envAfter := env }

/-- The `GET /health` handler (lines 35-37 of `server.ts`); it ignores the
environment entirely. -/
def handleHealth (_env : Env) : HttpResponse :=
  ⟨200, .obj [("status", .str "ok"),
              ("message", .str "LiveKit Token Server is running")]⟩

/-- Does a request body fail the handler's validation check (line 48)? -/
def requestInvalid (body : Option Json) : Bool :=
  let b := bodyOrEmpty body
  !jsTruthy (b.getField "roomName") || !jsTruthy (b.getField "participantName")

/-- Are all three configuration values present (truthy)? -/
def configPresent (env : Env) : Bool :=
  envTruthy env.livekitApiKey && envTruthy env.livekitApiSecret
    && envTruthy env.livekitUrl

/-- Is the body absent, `null`, or not a JSON object? -/
def bodyNotObj : Option Json → Bool
  | none => true
  | some j => !j.isObj

/-- Does the pattern (first argument) occur at the head of the text? -/
def leadsWith : List Char → List Char → Bool
  | [], _ => true
  | _ :: _, [] => false
  | a :: as, b :: bs => a == b && leadsWith as bs

/-- Does the pattern occur anywhere in the text? -/
def subSearch (pat : List Char) : List Char → Bool
  | [] => leadsWith pat []
  | c :: rest => leadsWith pat (c :: rest) || subSearch pat rest

/-- Does `s` contain `sub` as a contiguous substring? -/
def strContains (s sub : String) : Bool :=
  subSearch sub.toList s.toList

/-- A sequence of requests in one process.  `process.env` is a mutable
global read inside the handler at each call, so each request carries the
environment in force at its call time. -/
def processRun (sign : SignCall → Except JsThrown String)
    (requests : List (Env × Option Json)) : List HttpResponse :=
  requests.map fun r => (handleToken r.1 sign r.2).resp

/-- A fully-populated environment, for concrete instantiations. -/
def envFull : Env :=
  ⟨some "APIKey123", some "secret123", some "wss://example.livekit.cloud"⟩

/-- An environment with nothing configured. -/
def envEmpty : Env := ⟨none, none, none⟩

/-- A signing function that always succeeds with a fixed token. -/
def signOk : SignCall → Except JsThrown String := fun _ => .ok "tok.jwt.sig"

/-- A well-formed request body. -/
def validBody : Json :=
  .obj [("roomName", .str "test-room"), ("participantName", .str "TestUser")]

/-! ## Branch characterizations of the handler -/

/-- An invalid request yields the fixed 400 response, no signing call, and
an untouched environment — whatever the environment and signing function. -/
lemma handleToken_of_invalid (env : Env) (sign : SignCall → Except JsThrown String)
    (body : Option Json) (h : requestInvalid body = true) :
    handleToken env sign body =
      ⟨⟨400, .obj [("error", .str "roomName and participantName are required")]⟩,
        [], env⟩ := by
  simp only [requestInvalid] at h
  simp [handleToken, h]

/-- A valid request with incomplete configuration yields the fixed 500
response and no signing call. -/
lemma handleToken_of_noConfig (env : Env) (sign : SignCall → Except JsThrown String)
    (body : Option Json) (h1 : requestInvalid body = false)
    (h2 : configPresent env = false) :
    handleToken env sign body =
      ⟨⟨500, .obj [("error", .str "LiveKit credentials are not configured")]⟩,
        [], env⟩ := by
  simp only [requestInvalid] at h1
  simp only [configPresent, Bool.and_eq_false_iff] at h2
  rcases h2 with (h | h) | h <;> simp [handleToken, h1, h]

/-- A valid request, full configuration, successful signing: 200 response
echoing the request fields, one signing call. -/
lemma handleToken_of_ok (env : Env) (sign : SignCall → Except JsThrown String)
    (body : Option Json) (token : String) (h1 : requestInvalid body = false)
    (h2 : configPresent env = true)
    (h3 : sign (signCallOf env body) = .ok token) :
    handleToken env sign body =
      ⟨⟨200, .obj [("token", .str token),
                   ("serverUrl", .str (env.livekitUrl.getD "")),
                   ("roomName", ((bodyOrEmpty body).getField "roomName").getD .null),
                   ("participantName",
                     ((bodyOrEmpty body).getField "participantName").getD .null)]⟩,
        [signCallOf env body], env⟩ := by
  simp only [requestInvalid] at h1
  simp only [configPresent, Bool.and_eq_true] at h2
  simp [handleToken, h1, h2.1.1, h2.1.2, h2.2, h3]

/-- A valid request, full configuration, signing throws: 500 response with
the extracted message, one signing call. -/
lemma handleToken_of_thrown (env : Env) (sign : SignCall → Except JsThrown String)
    (body : Option Json) (e : JsThrown) (h1 : requestInvalid body = false)
    (h2 : configPresent env = true)
    (h3 : sign (signCallOf env body) = .error e) :
    handleToken env sign body =
      ⟨⟨500, .obj [("error", .str "Failed to generate token"),
                   ("details", .str e.message)]⟩,
        [signCallOf env body], env⟩ := by
  simp only [requestInvalid] at h1
  simp only [configPresent, Bool.and_eq_true] at h2
  simp [handleToken, h1, h2.1.1, h2.1.2, h2.2, h3]

/-! ## Claims -/

/-- C6: `GET /health` returns HTTP 200 with status field `"ok"` for every
request, regardless of which signing configuration values are present. -/
theorem health_always_ok (env : Env) :
    (handleHealth env).status = 200 ∧
      (handleHealth env).body.getField "status" = some (.str "ok") := by
  constructor <;> rfl

/-- C7: on every path — success and every error kind — the token handler
leaves the process environment unchanged, produces nothing but the
response, and invokes the signing primitive at most once (no retry). -/
theorem token_handler_frame (env : Env) (sign : SignCall → Except JsThrown String)
    (body : Option Json) :
    (handleToken env sign body).envAfter = env ∧
      (handleToken env sign body).signCalls.length ≤ 1 := by
  unfold handleToken
  dsimp only
  split
  · exact ⟨rfl, by simp⟩
  · split
    · exact ⟨rfl, by simp⟩
    · cases sign (signCallOf env body) <;> exact ⟨rfl, by simp⟩

/-- C8: the token handler is total: for every environment, every signing
behaviour (including throwing an arbitrary non-`Error` value), and every
request body, exactly one response is produced and its status is 200, 400
or 500. -/
theorem token_handler_total (env : Env) (sign : SignCall → Except JsThrown String)
    (body : Option Json) :
    (handleToken env sign body).resp.status = 200 ∨
      (handleToken env sign body).resp.status = 400 ∨
      (handleToken env sign body).resp.status = 500 := by
  unfold handleToken
  dsimp only
  split
  · exact Or.inr (Or.inl rfl)
  · split
    · exact Or.inr (Or.inr rfl)
    · cases sign (signCallOf env body)
      · exact Or.inr (Or.inr rfl)
      · exact Or.inl rfl

/-- A signing function that always throws an `Error`. -/
def signThrow : SignCall → Except JsThrown String :=
  fun _ => .error (.error "simulated signing failure")

/-- C1 counterexample: a request whose `roomName` has the wrong type but is
JavaScript-truthy (the number 5) passes the `!roomName` validation check, so
with missing configuration the handler returns 500, not 400 — refuting the
claim that every wrong-typed field yields 400 independent of configuration. -/
theorem validation_wrongType_counterexample :
    (handleToken envEmpty signOk
        (some (.obj [("roomName", .num 5),
                     ("participantName", .str "TestUser")]))).resp.status = 500 ∧
      ¬ (handleToken envEmpty signOk
        (some (.obj [("roomName", .num 5),
                     ("participantName", .str "TestUser")]))).resp.status = 400 := by
  constructor
  · rfl
  · intro h
    exact absurd ((rfl : (handleToken envEmpty signOk
        (some (.obj [("roomName", .num 5),
                     ("participantName", .str "TestUser")]))).resp.status = 500) ▸ h)
      (by decide)

/-- C1 (amended): a request in which `roomName` or `participantName` is
missing, empty, or otherwise JavaScript-falsy gets the fixed 400 response
with an `error` field, with no signing call, and the response is
independent of the configuration and of the signing primitive. -/
theorem validation_falsy_400 (env env' : Env)
    (sign sign' : SignCall → Except JsThrown String) (body : Option Json)
    (h : requestInvalid body = true) :
    (handleToken env sign body).resp =
      ⟨400, .obj [("error", .str "roomName and participantName are required")]⟩ ∧
    (handleToken env sign body).signCalls = [] ∧
    (handleToken env sign body).resp = (handleToken env' sign' body).resp := by
  rw [handleToken_of_invalid env sign body h, handleToken_of_invalid env' sign' body h]
  exact ⟨rfl, rfl, rfl⟩

/-- Witness for C1 (amended): a body missing `participantName`, under empty
configuration on one side and full configuration on the other. -/
theorem validation_falsy_400_witness :
    requestInvalid (some (.obj [("roomName", .str "test-room")])) = true ∧
    ((handleToken envEmpty signOk (some (.obj [("roomName", .str "test-room")]))).resp =
      ⟨400, .obj [("error", .str "roomName and participantName are required")]⟩ ∧
    (handleToken envEmpty signOk
      (some (.obj [("roomName", .str "test-room")]))).signCalls = [] ∧
    (handleToken envEmpty signOk (some (.obj [("roomName", .str "test-room")]))).resp =
      (handleToken envFull signThrow
        (some (.obj [("roomName", .str "test-room")]))).resp) :=
  ⟨rfl, validation_falsy_400 envEmpty envFull signOk signThrow
    (some (.obj [("roomName", .str "test-room")])) rfl⟩

/-- A body that is absent, `null`, or a non-object makes validation fail:
property access on it yields no field, so both names are falsy. -/
lemma requestInvalid_of_bodyNotObj (body : Option Json)
    (h : bodyNotObj body = true) : requestInvalid body = true := by
  cases body with
  | none => rfl
  | some j =>
      cases j <;>
        simp_all [bodyNotObj, Json.isObj, requestInvalid, bodyOrEmpty,
          Json.getField, jsTruthy]

/-- C9: a request whose body is absent, `null`, or not a JSON object is a
validation failure — the `req.body ?? {}` fallback substitutes the empty
object for an absent or `null` body, field access never throws, and the
handler returns the fixed 400 response with an `error` field. -/
theorem missing_body_400 (env : Env) (sign : SignCall → Except JsThrown String)
    (body : Option Json) (h : bodyNotObj body = true) :
    (handleToken env sign body).resp =
      ⟨400, .obj [("error", .str "roomName and participantName are required")]⟩ ∧
    bodyOrEmpty none = .obj [] ∧ bodyOrEmpty (some .null) = .obj [] := by
  rw [handleToken_of_invalid env sign body (requestInvalid_of_bodyNotObj body h)]
  exact ⟨rfl, rfl, rfl⟩

/-- Witness for C9: a body that is the number 7 (parsed JSON, not an
object). -/
theorem missing_body_400_witness :
    bodyNotObj (some (.num 7)) = true ∧
    ((handleToken envFull signOk (some (.num 7))).resp =
      ⟨400, .obj [("error", .str "roomName and participantName are required")]⟩ ∧
    bodyOrEmpty none = .obj [] ∧ bodyOrEmpty (some .null) = .obj []) :=
  ⟨rfl, missing_body_400 envFull signOk (some (.num 7)) rfl⟩

/-- C10: any two requests that fail validation — whichever of the two
fields is missing or empty, and whatever the configuration and signing
function — receive the identical response, whose body is the single fixed
error string. -/
theorem validation_uniform_response (env env' : Env)
    (sign sign' : SignCall → Except JsThrown String) (body body' : Option Json)
    (h : requestInvalid body = true) (h' : requestInvalid body' = true) :
    (handleToken env sign body).resp = (handleToken env' sign' body').resp ∧
    (handleToken env sign body).resp.body =
      .obj [("error", .str "roomName and participantName are required")] := by
  rw [handleToken_of_invalid env sign body h, handleToken_of_invalid env' sign' body' h']
  exact ⟨rfl, rfl⟩

/-- Witness for C10: missing `roomName` under full configuration versus
empty `participantName` under empty configuration. -/
theorem validation_uniform_response_witness :
    requestInvalid (some (.obj [("participantName", .str "TestUser")])) = true ∧
    requestInvalid (some (.obj [("roomName", .str "test-room"),
                                ("participantName", .str "")])) = true ∧
    ((handleToken envFull signOk
        (some (.obj [("participantName", .str "TestUser")]))).resp =
      (handleToken envEmpty signThrow
        (some (.obj [("roomName", .str "test-room"),
                     ("participantName", .str "")]))).resp ∧
    (handleToken envFull signOk
        (some (.obj [("participantName", .str "TestUser")]))).resp.body =
      .obj [("error", .str "roomName and participantName are required")]) :=
  ⟨rfl, rfl, validation_uniform_response envFull envEmpty signOk signThrow
    (some (.obj [("participantName", .str "TestUser")]))
    (some (.obj [("roomName", .str "test-room"), ("participantName", .str "")]))
    rfl rfl⟩

/-- The detail string of a response body, when present. -/
def detailsOf (r : HttpResponse) : String :=
  match r.body.getField "details" with
  | some (.str s) => s
  | _ => ""

/-- C2: a request with non-empty string `roomName` and `participantName`,
full configuration, and a succeeding signing primitive gets HTTP 200 with
the produced (non-empty) token, the configured media-service address, and
both request fields echoed exactly. -/
theorem token_success (k s u rn pn jwt : String)
    (sign : SignCall → Except JsThrown String)
    (hk : k ≠ "") (hs : s ≠ "") (hu : u ≠ "") (hrn : rn ≠ "") (hpn : pn ≠ "")
    (hjwt : jwt ≠ "")
    (hsign : sign (signCallOf ⟨some k, some s, some u⟩
      (some (.obj [("roomName", .str rn), ("participantName", .str pn)]))) = .ok jwt) :
    (handleToken ⟨some k, some s, some u⟩ sign
        (some (.obj [("roomName", .str rn), ("participantName", .str pn)]))).resp =
      ⟨200, .obj [("token", .str jwt), ("serverUrl", .str u),
                  ("roomName", .str rn), ("participantName", .str pn)]⟩ ∧
    jwt ≠ "" := by
  have h1 : requestInvalid
      (some (.obj [("roomName", .str rn), ("participantName", .str pn)])) =
      (!(rn != "") || !(pn != "")) := rfl
  have h2 : configPresent ⟨some k, some s, some u⟩ =
      (((k != "") && (s != "")) && (u != "")) := rfl
  rw [handleToken_of_ok _ _ _ jwt (by simp [h1, hrn, hpn])
    (by simp [h2, hk, hs, hu]) hsign]
  exact ⟨rfl, hjwt⟩

/-- Witness for C2 at the spec's own example request. -/
theorem token_success_witness :
    ("APIKey123" : String) ≠ "" ∧ ("secret123" : String) ≠ "" ∧
    ("wss://example.livekit.cloud" : String) ≠ "" ∧
    ("test-room" : String) ≠ "" ∧ ("TestUser" : String) ≠ "" ∧
    ("tok.jwt.sig" : String) ≠ "" ∧
    ((handleToken ⟨some "APIKey123", some "secret123",
        some "wss://example.livekit.cloud"⟩ signOk (some validBody)).resp =
      ⟨200, .obj [("token", .str "tok.jwt.sig"),
                  ("serverUrl", .str "wss://example.livekit.cloud"),
                  ("roomName", .str "test-room"),
                  ("participantName", .str "TestUser")]⟩ ∧
      ("tok.jwt.sig" : String) ≠ "") :=
  ⟨by decide, by decide, by decide, by decide, by decide, by decide,
    token_success "APIKey123" "secret123" "wss://example.livekit.cloud"
      "test-room" "TestUser" "tok.jwt.sig" signOk
      (by decide) (by decide) (by decide) (by decide) (by decide) (by decide) rfl⟩

/-- C3: every invocation of the signing primitive carries exactly the four
constant capability bits set to true, a grant scoped to the request's
`roomName`, and identity and display name both equal to the request's
`participantName` — no request field can change any of this. -/
theorem grant_is_constant (env : Env) (sign : SignCall → Except JsThrown String)
    (body : Option Json) (c : SignCall)
    (h : c ∈ (handleToken env sign body).signCalls) :
    c.grant.roomJoin = true ∧ c.grant.canPublish = true ∧
    c.grant.canSubscribe = true ∧ c.grant.canUpdateOwnMetadata = true ∧
    c.grant.room = ((bodyOrEmpty body).getField "roomName").getD .null ∧
    c.identity = ((bodyOrEmpty body).getField "participantName").getD .null ∧
    c.name = c.identity := by
  unfold handleToken at h
  dsimp only at h
  split at h
  · simp at h
  · split at h
    · simp at h
    · cases hsign : sign (signCallOf env body) <;> rw [hsign] at h <;>
        simp only [List.mem_singleton] at h <;> subst h <;>
        exact ⟨rfl, rfl, rfl, rfl, rfl, rfl, rfl⟩

/-- Witness for C3: the call made for the valid example request under full
configuration. -/
theorem grant_is_constant_witness :
    signCallOf envFull (some validBody) ∈
      (handleToken envFull signOk (some validBody)).signCalls ∧
    ((signCallOf envFull (some validBody)).grant.roomJoin = true ∧
    (signCallOf envFull (some validBody)).grant.canPublish = true ∧
    (signCallOf envFull (some validBody)).grant.canSubscribe = true ∧
    (signCallOf envFull (some validBody)).grant.canUpdateOwnMetadata = true ∧
    (signCallOf envFull (some validBody)).grant.room =
      ((bodyOrEmpty (some validBody)).getField "roomName").getD .null ∧
    (signCallOf envFull (some validBody)).identity =
      ((bodyOrEmpty (some validBody)).getField "participantName").getD .null ∧
    (signCallOf envFull (some validBody)).name =
      (signCallOf envFull (some validBody)).identity) :=
  ⟨by rw [show (handleToken envFull signOk (some validBody)).signCalls =
        [signCallOf envFull (some validBody)] from rfl]
      exact List.mem_singleton_self _,
    grant_is_constant envFull signOk (some validBody) _
      (by rw [show (handleToken envFull signOk (some validBody)).signCalls =
            [signCallOf envFull (some validBody)] from rfl]
          exact List.mem_singleton_self _)⟩

/-- C4 counterexample: two requests with the identical valid body inside
one process run observe different configurations — the environment is read
inside the handler at each call (server.ts lines 55-57), so when the
mutable `process.env` differs between the two call times the first request
succeeds and the second fails, refuting "every request observes the
configuration identically, with no per-request configuration read". -/
theorem config_per_request_counterexample :
    (processRun signOk [(envFull, some validBody),
        (envEmpty, some validBody)]).map HttpResponse.status = [200, 500] ∧
    (processRun signOk [(envFull, some validBody),
        (envEmpty, some validBody)]).get? 0 ≠
      (processRun signOk [(envFull, some validBody),
        (envEmpty, some validBody)]).get? 1 := by
  constructor
  · rfl
  · intro h
    exact absurd (congrArg (Option.map HttpResponse.status) h) (by decide)

/-- C4 (amended): the configuration is read from the process environment at
each request, after validation; a valid request under an environment
missing (or holding empty) any of the three values receives the fixed 500
response at call time, with no signing call and no environment change —
and startup is unaffected since the check only runs per request. -/
theorem config_missing_500 (env : Env) (sign : SignCall → Except JsThrown String)
    (body : Option Json) (h1 : requestInvalid body = false)
    (h2 : configPresent env = false) :
    (handleToken env sign body).resp =
      ⟨500, .obj [("error", .str "LiveKit credentials are not configured")]⟩ ∧
    (handleToken env sign body).signCalls = [] ∧
    (handleToken env sign body).envAfter = env := by
  rw [handleToken_of_noConfig env sign body h1 h2]
  exact ⟨rfl, rfl, rfl⟩

/-- Witness for C4 (amended): the valid example request under an
environment in which only the secret is missing. -/
theorem config_missing_500_witness :
    requestInvalid (some validBody) = false ∧
    configPresent ⟨some "APIKey123", none, some "wss://example.livekit.cloud"⟩ = false ∧
    ((handleToken ⟨some "APIKey123", none, some "wss://example.livekit.cloud"⟩
        signOk (some validBody)).resp =
      ⟨500, .obj [("error", .str "LiveKit credentials are not configured")]⟩ ∧
    (handleToken ⟨some "APIKey123", none, some "wss://example.livekit.cloud"⟩
        signOk (some validBody)).signCalls = [] ∧
    (handleToken ⟨some "APIKey123", none, some "wss://example.livekit.cloud"⟩
        signOk (some validBody)).envAfter =
      ⟨some "APIKey123", none, some "wss://example.livekit.cloud"⟩) :=
  ⟨rfl, rfl, config_missing_500 ⟨some "APIKey123", none,
    some "wss://example.livekit.cloud"⟩ signOk (some validBody) rfl rfl⟩

/-- A signing function that throws an `Error` whose message embeds the
secret it was invoked with — as a key-validation failure inside a signing
library may do. -/
def signThrowLeaky : SignCall → Except JsThrown String :=
  fun c => .error (.error ("invalid key pair: " ++ c.apiKey ++ " / " ++ c.apiSecret))

/-- C5 counterexample: the handler forwards the thrown message into the
`details` field verbatim, with no scrubbing — so when the signing primitive
throws an `Error` whose message embeds the configured secret, the 500
response's detail string contains the secret value, refuting "that detail
string never includes the signing secret value". -/
theorem signing_detail_leak_counterexample :
    (handleToken envFull signThrowLeaky (some validBody)).resp.status = 500 ∧
    strContains (detailsOf (handleToken envFull signThrowLeaky (some validBody)).resp)
      "secret123" = true := by
  exact ⟨rfl, by decide⟩

/-- C5 (amended): for every request that passes validation and
configuration checks, any failure thrown by the signing primitive —
`Error` or arbitrary value — is caught, never propagated, and surfaced as
HTTP 500 whose body carries the generic message plus a detail string equal,
verbatim, to the message extracted from the underlying failure; the handler
performs no scrubbing, so the detail string contains any given string (the
signing secret included) exactly when the extracted message does. -/
theorem signing_failure_verbatim (env : Env)
    (sign : SignCall → Except JsThrown String) (body : Option Json)
    (e : JsThrown) (secret : String)
    (h1 : requestInvalid body = false) (h2 : configPresent env = true)
    (hsign : sign (signCallOf env body) = .error e) :
    (handleToken env sign body).resp.status = 500 ∧
    (handleToken env sign body).resp.body.getField "error" =
      some (.str "Failed to generate token") ∧
    (handleToken env sign body).resp.body.getField "details" =
      some (.str e.message) ∧
    detailsOf (handleToken env sign body).resp = e.message ∧
    strContains (detailsOf (handleToken env sign body).resp) secret =
      strContains e.message secret := by
  rw [handleToken_of_thrown env sign body e h1 h2 hsign]
  exact ⟨rfl, rfl, rfl, rfl, rfl⟩

/-- Witness for C5 (amended): a concrete thrown `Error` under full
configuration, checked against the configured secret. -/
theorem signing_failure_verbatim_witness :
    requestInvalid (some validBody) = false ∧
    configPresent envFull = true ∧
    ((handleToken envFull signThrow (some validBody)).resp.status = 500 ∧
    (handleToken envFull signThrow (some validBody)).resp.body.getField "error" =
      some (.str "Failed to generate token") ∧
    (handleToken envFull signThrow (some validBody)).resp.body.getField "details" =
      some (.str (JsThrown.message (.error "simulated signing failure"))) ∧
    detailsOf (handleToken envFull signThrow (some validBody)).resp =
      JsThrown.message (.error "simulated signing failure") ∧
    strContains (detailsOf (handleToken envFull signThrow (some validBody)).resp)
      "secret123" =
      strContains (JsThrown.message (.error "simulated signing failure"))
        "secret123") :=
  ⟨rfl, rfl,
    signing_failure_verbatim envFull signThrow (some validBody)
      (.error "simulated signing failure") "secret123" rfl rfl rfl⟩

end LiveKit
